import Mathlib

/-!
Verification of the postpartum-care application's chatbot decision core
and of two request handlers that appear in the repository source.

The chatbot core (Embedding Index, Confidence Scorer, Fallback Generator
Adapter, Response Composer, Conversation Orchestrator) lives in the Flask
backend (`server/app/ml_services/chatbot/`), which is not part of the
source tree available here; those components are modelled from the
specification text.  The frontend `Chatbot` component and the nutrition
`/predict` Express route are present in the source and are embedded
directly from their code.

Similarity scores, confidence values and thresholds are represented by
rational numbers.
-/

namespace Chatbot

/-- Modelled from the spec: `KnowledgeEntry` record of the Embedding Index
(the backend `rag_service` is missing from the source tree); a curated
question/answer pair. -/
structure KnowledgeEntry where
  question : String
  answer : String
deriving DecidableEq, Repr

/-- Modelled from the spec: the route decision produced by the Confidence
Scorer of the missing backend service. -/
inductive RouteDecision where
  | USE_KNOWLEDGE_BASE
  | USE_FALLBACK
deriving DecidableEq, Repr

/-- Modelled from the spec: the Confidence Scorer `decide` of the missing
backend service.  `confidence = max 0 top_score`; the route is
`USE_KNOWLEDGE_BASE` when `confidence >= threshold`, otherwise
`USE_FALLBACK`. -/
def decide (top_score threshold : ℚ) : RouteDecision × ℚ :=
  let confidence := max 0 top_score
  (if confidence ≥ threshold then RouteDecision.USE_KNOWLEDGE_BASE
   else RouteDecision.USE_FALLBACK, confidence)

/-- Modelled from the spec: a stored record of the Embedding Index of the
missing backend service — a knowledge entry together with its normalized
embedding vector. -/
structure IndexEntry where
  entry : KnowledgeEntry
  embedding : List ℚ
deriving DecidableEq

/-- Modelled from the spec: the built Embedding Index of the missing
backend service. -/
structure Index where
  entries : List IndexEntry
deriving DecidableEq

/-- Modelled from the spec: readiness state of the Embedding Index owned
by the Conversation Orchestrator of the missing backend service. -/
inductive IndexState where
  | notReady
  | ready (idx : Index)

/-- Modelled from the spec: error taxonomy of the missing backend
service relevant to the Embedding Index. -/
inductive ChatError where
  | corpusEmptyError
  | indexNotReadyError
deriving DecidableEq

/-- Modelled from the spec: dot product, i.e. cosine similarity over
L2-normalized embedding vectors, used by the missing backend index. -/
def dot (v w : List ℚ) : ℚ := (List.zipWith (fun a b => a * b) v w).sum

/-- Modelled from the spec: `build` of the Embedding Index of the missing
backend service — stores an embedding per corpus entry, failing with
`CorpusEmptyError` on an empty corpus. -/
def build (embed : String → List ℚ) (corpus : List KnowledgeEntry) :
    Except ChatError Index :=
  if corpus = [] then Except.error ChatError.corpusEmptyError
  else Except.ok ⟨corpus.map fun qa => ⟨qa, embed qa.question⟩⟩

/-- Modelled from the spec: a corpus entry of the missing backend index
scored against a query — its original corpus position, the entry, and its
similarity score. -/
structure Scored where
  idx : ℕ
  entry : KnowledgeEntry
  score : ℚ
deriving DecidableEq

/-- Scores the stored entries in corpus order, starting at position `i`. -/
def scoredOfAux (v : List ℚ) : ℕ → List IndexEntry → List Scored
  | _, [] => []
  | i, e :: es => ⟨i, e.entry, dot v e.embedding⟩ :: scoredOfAux v (i + 1) es

/-- Modelled from the spec: all stored entries of the missing backend
index scored against the embedded query text. -/
def scoredOf (idx : Index) (embed : String → List ℚ) (text : String) :
    List Scored :=
  scoredOfAux (embed text) 0 idx.entries

/-- Retrieval order of the missing backend index: higher similarity
first, ties broken by the original corpus position. -/
def scoredLE (a b : Scored) : Prop :=
  b.score < a.score ∨ (a.score = b.score ∧ a.idx ≤ b.idx)

instance : DecidableRel scoredLE := fun a b => by
  unfold scoredLE
  infer_instance

instance : IsTotal Scored scoredLE :=
  ⟨fun a b => by
    unfold scoredLE
    rcases lt_trichotomy a.score b.score with h | h | h
    · exact Or.inr (Or.inl h)
    · rcases Nat.le_total a.idx b.idx with hi | hi
      · exact Or.inl (Or.inr ⟨h, hi⟩)
      · exact Or.inr (Or.inr ⟨h.symm, hi⟩)
    · exact Or.inl (Or.inl h)⟩

instance : IsTrans Scored scoredLE :=
  ⟨fun a b c hab hbc => by
    unfold scoredLE at hab hbc ⊢
    rcases hab with h1 | ⟨h1, i1⟩ <;> rcases hbc with h2 | ⟨h2, i2⟩
    · exact Or.inl (lt_trans h2 h1)
    · exact Or.inl (by rw [← h2]; exact h1)
    · exact Or.inl (by rw [h1]; exact h2)
    · exact Or.inr ⟨h1.trans h2, le_trans i1 i2⟩⟩

/-- Modelled from the spec: the scored entries of the missing backend
index, sorted descending by similarity with ties broken by corpus
order. -/
def sortedScored (idx : Index) (embed : String → List ℚ) (text : String) :
    List Scored :=
  List.insertionSort scoredLE (scoredOf idx embed text)

/-- Modelled from the spec: the `top_score` of a retrieval — the highest
similarity against the stored corpus (`0` for an empty index). -/
def topScoreOf (idx : Index) (embed : String → List ℚ) (text : String) : ℚ :=
  (((sortedScored idx embed text).head?).map Scored.score).getD 0

/-- Modelled from the spec: `RetrievalResult` of the missing backend
index. -/
structure RetrievalResult where
  «matches» : List (KnowledgeEntry × ℚ)
  top_score : ℚ
deriving DecidableEq

/-- Modelled from the spec: `query` of the Embedding Index of the missing
backend service — embeds the text, scores all stored entries, and returns
the top-k matches sorted descending with stable ties; fails with
`IndexNotReadyError` before `build` completes. -/
def query (st : IndexState) (embed : String → List ℚ) (text : String)
    (k : ℕ) : Except ChatError RetrievalResult :=
  match st with
  | IndexState.notReady => Except.error ChatError.indexNotReadyError
  | IndexState.ready idx =>
    Except.ok ⟨((sortedScored idx embed text).take k).map fun s => (s.entry, s.score),
      topScoreOf idx embed text⟩

/-- Modelled from the spec: outcome of one generative provider attempt in
the fallback chain of the missing backend service; transport errors and
timeouts are both treated as provider failure and skipped. -/
inductive ProviderOutcome where
  | ok (text : String)
  | transportError
  | timeout
deriving DecidableEq

/-- Modelled from the spec: minimal content validation of the missing
backend fallback chain — a response must be non-empty and not an echo of
the input. -/
def validResponse (q resp : String) : Bool := !(resp == "") && !(resp == q)

/-- Modelled from the spec: generation error taxonomy surfaced by the
fallback chain of the missing backend service. -/
inductive GenerationError where
  | AllProvidersExhausted
deriving DecidableEq

/-- Whether a provider attempt yields a response passing validation. -/
def providerSucceeds (q : String) : ProviderOutcome → Bool
  | ProviderOutcome.ok t => validResponse q t
  | ProviderOutcome.transportError => false
  | ProviderOutcome.timeout => false

/-- Modelled from the spec: `generate` of the Fallback Generator Adapter
of the missing backend service — providers are tried in priority order,
failures and invalid responses advance the chain, and exhaustion returns
`AllProvidersExhausted`. -/
def generate (q : String) : List ProviderOutcome → Except GenerationError String
  | [] => Except.error GenerationError.AllProvidersExhausted
  | ProviderOutcome.ok t :: rest =>
    if validResponse q t then Except.ok t else generate q rest
  | ProviderOutcome.transportError :: rest => generate q rest
  | ProviderOutcome.timeout :: rest => generate q rest

/-- Modelled from the spec: answer metadata of the Response Composer of
the missing backend service. -/
structure Metadata where
  source : String
  confidence : ℚ
deriving DecidableEq

/-- Modelled from the spec: the external `AnswerPayload` contract of the
missing backend service. -/
structure AnswerPayload where
  answer : String
  metadata : Metadata
  similar_questions : List KnowledgeEntry
deriving DecidableEq

/-- Modelled from the spec: the static apology answer substituted when all
providers are exhausted in the missing backend service. -/
def FALLBACK_APOLOGY : String :=
  "Sorry, I am having trouble answering right now. Please try again later."

/-- Modelled from the spec: `compose` of the Response Composer of the
missing backend service. -/
def compose (d : RouteDecision) (r : RetrievalResult)
    (fallback_text : Option String) : AnswerPayload :=
  let conf := max 0 r.top_score
  let sq := r.«matches».map Prod.fst
  match d, fallback_text with
  | RouteDecision.USE_KNOWLEDGE_BASE, _ =>
    ⟨((r.«matches».head?).map fun m => m.1.answer).getD "", ⟨"rag", conf⟩, sq⟩
  | RouteDecision.USE_FALLBACK, some t => ⟨t, ⟨"fallback", conf⟩, sq⟩
  | RouteDecision.USE_FALLBACK, none => ⟨FALLBACK_APOLOGY, ⟨"fallback", 0⟩, sq⟩

/-- Modelled from the spec: `handle_message` of the Conversation
Orchestrator of the missing backend service — retrieve, decide the route,
conditionally invoke the fallback chain, and compose the payload. -/
def handle_message (st : IndexState) (embed : String → List ℚ)
    (threshold : ℚ) (k : ℕ) (providers : List ProviderOutcome)
    (text : String) : Except ChatError AnswerPayload :=
  match Chatbot.query st embed text k with
  | Except.error e => Except.error e
  | Except.ok r =>
    match (Chatbot.decide r.top_score threshold).1 with
    | RouteDecision.USE_KNOWLEDGE_BASE =>
      Except.ok (compose RouteDecision.USE_KNOWLEDGE_BASE r none)
    | RouteDecision.USE_FALLBACK =>
      match generate text providers with
      | Except.ok t => Except.ok (compose RouteDecision.USE_FALLBACK r (some t))
      | Except.error _ => Except.ok (compose RouteDecision.USE_FALLBACK r none)

/-- Modelled from the spec: the HTTP boundary of `POST /chat` — status 200
with a payload on success; a 5xx only when the orchestrator is not
ready. -/
def chatEndpoint (st : IndexState) (embed : String → List ℚ)
    (threshold : ℚ) (k : ℕ) (providers : List ProviderOutcome)
    (text : String) : ℕ × Option AnswerPayload :=
  match handle_message st embed threshold k providers text with
  | Except.ok p => (200, some p)
  | Except.error _ => (500, none)

/-- Model of `String.prototype.toUpperCase` as applied by the frontend
`Chatbot` component to the ASCII source tag. -/
def jsToUpperCase (s : String) : String := String.mk (s.data.map Char.toUpper)

/-- Model of JavaScript `Math.round` (round half toward positive
infinity). -/
def mathRound (x : ℚ) : ℤ := ⌊x + 1/2⌋

/-- The metadata caption rendered by the frontend `Chatbot` component for
a bot message carrying metadata: the JSX children are the text
`Source: `, the value `metadata.source.toUpperCase()`, and the expression
`metadata.confidence && · • Confidence: NN%·.`  React renders the template
string when `confidence` is truthy, and renders the numeral `0` when the
guard expression evaluates to the falsy number `0`. -/
def metadataLine (source : String) (confidence : ℚ) : String :=
  "Source: " ++ jsToUpperCase source ++
    (if confidence = 0 then "0"
     else " • Confidence: " ++ toString (mathRound (confidence * 100)) ++ "%")

end Chatbot

namespace Nutrition

/-- Model of `String.prototype.toLowerCase` as applied by the nutrition
route to the ASCII cuisine string. -/
def jsToLowerCase (s : String) : String := String.mk (s.data.map Char.toLower)

/-- Request body of `POST /predict` in the nutrition route; a field the
caller omits is `none`. -/
structure NutritionInput where
  breastfeeding : Option String
  dietType : Option String
  allergies : Option String
  deficiency : Option String
  preferredCuisine : Option String

/-- One recommendation produced by the nutrition route. -/
structure Recommendation where
  title : String
  description : String
deriving DecidableEq

/-- The breastfeeding recommendation of the nutrition route. -/
def breastfeedingRec : Recommendation :=
  ⟨"Breastfeeding Nutrition",
   "Increase your daily caloric intake by 500 calories and ensure adequate hydration. Include foods rich in omega-3 fatty acids and calcium."⟩

/-- The vegan-diet recommendation of the nutrition route. -/
def veganRec : Recommendation :=
  ⟨"Vegan Diet Support",
   "Focus on plant-based protein sources like legumes, tofu, and quinoa. Consider supplementing with B12 and iron if needed."⟩

/-- The iron-deficiency recommendation of the nutrition route. -/
def ironRec : Recommendation :=
  ⟨"Iron-Rich Foods",
   "Include iron-rich foods like spinach, lentils, and fortified cereals. Pair with vitamin C-rich foods to enhance absorption."⟩

/-- The Indian-cuisine recommendation of the nutrition route. -/
def indianRec : Recommendation :=
  ⟨"Indian Cuisine Recommendations",
   "Include traditional postpartum foods like ghee, moong dal, and methi. Opt for whole grain rotis and include plenty of vegetables."⟩

/-- The unconditional general recommendation of the nutrition route,
always pushed last. -/
def generalRec : Recommendation :=
  ⟨"General Postpartum Nutrition",
   "Focus on whole foods, stay hydrated, and eat regular meals. Include a variety of fruits, vegetables, and protein sources."⟩

/-- `generateMockRecommendations` of the nutrition route: pushes the
condition-matched recommendations in order and always appends the general
recommendation; calling `toLowerCase` on an absent `preferredCuisine`
throws a `TypeError`, modelled as `Except.error`. -/
def generateMockRecommendations (u : NutritionInput) :
    Except Unit (List Recommendation) :=
  match u.preferredCuisine with
  | none => Except.error ()
  | some c =>
    Except.ok
      (((if u.breastfeeding = some "yes" then [breastfeedingRec] else []) ++
        (if u.dietType = some "vegan" then [veganRec] else []) ++
        (if u.deficiency = some "iron" then [ironRec] else []) ++
        (if jsToLowerCase c = "indian" then [indianRec] else [])) ++
       [generalRec])

/-- Response of the `POST /predict` handler: status with either a
recommendations body or an error body. -/
structure PredictResponse where
  status : ℕ
  recommendations : Option (List Recommendation)
  error : Option String
deriving DecidableEq

/-- The `POST /predict` handler of the nutrition route: responds 200 with
the generated recommendations, or 500 with a fixed error message when
`generateMockRecommendations` throws. -/
def predict (u : NutritionInput) : PredictResponse :=
  match generateMockRecommendations u with
  | Except.ok recs => ⟨200, some recs, none⟩
  | Except.error _ =>
    ⟨500, none, some "Failed to generate nutrition recommendations"⟩

end Nutrition

namespace Chatbot

/-- The route component of `decide`, unfolded. -/
theorem decide_fst (ts th : ℚ) :
    (Chatbot.decide ts th).1 =
      if th ≤ max 0 ts then RouteDecision.USE_KNOWLEDGE_BASE
      else RouteDecision.USE_FALLBACK := rfl

/-- The confidence component of `decide`, unfolded. -/
theorem decide_snd (ts th : ℚ) : (Chatbot.decide ts th).2 = max 0 ts := rfl

/-- C1 counterexample: with the configured threshold `0` (inside the
recognized range `[0,1]`) and a negative similarity `-1/2`, the scorer
routes to the knowledge base even though `top_score < threshold`, so the
claimed equivalence `USE_KNOWLEDGE_BASE iff top_score >= threshold`
fails. -/
theorem decide_raw_iff_counterexample :
    (Chatbot.decide (-(1 : ℚ)/2) 0).1 = RouteDecision.USE_KNOWLEDGE_BASE ∧
      ¬ ((-(1 : ℚ)/2) ≥ (0 : ℚ)) := by
  constructor
  · rw [decide_fst]
    have hmax : max (0 : ℚ) (-(1 : ℚ)/2) = 0 := max_eq_left (by norm_num)
    rw [hmax, if_pos (le_refl (0 : ℚ))]
  · norm_num

/-- C1 (amended): the scorer routes to `USE_KNOWLEDGE_BASE` exactly when
the clamped confidence `max 0 top_score` is at least the threshold; for
every strictly positive threshold this coincides with
`top_score >= threshold`. -/
theorem decide_route_iff (ts th : ℚ) (h : 0 < th) :
    ((Chatbot.decide ts th).1 = RouteDecision.USE_KNOWLEDGE_BASE ↔ max 0 ts ≥ th) ∧
      ((Chatbot.decide ts th).1 = RouteDecision.USE_KNOWLEDGE_BASE ↔ ts ≥ th) := by
  refine ⟨?_, ?_⟩ <;> rw [decide_fst]
  · split_ifs with hc
    · simp [hc]
    · simp [hc]
  · split_ifs with hc
    · have hts : th ≤ ts := by
        rcases le_or_lt ts 0 with h0 | h0
        · rw [max_eq_left h0] at hc
          linarith
        · rwa [max_eq_right h0.le] at hc
      simp [hts]
    · have hts : ¬ th ≤ ts := fun hh => hc (le_max_of_le_right hh)
      simp [hts]

/-- Witness for `decide_route_iff` at `top_score = 3/4`,
`threshold = 3/5`. -/
theorem decide_route_iff_witness :
    (((Chatbot.decide (3/4 : ℚ) (3/5)).1 = RouteDecision.USE_KNOWLEDGE_BASE ↔
        max 0 (3/4 : ℚ) ≥ (3/5 : ℚ)) ∧
      ((Chatbot.decide (3/4 : ℚ) (3/5)).1 = RouteDecision.USE_KNOWLEDGE_BASE ↔
        (3/4 : ℚ) ≥ (3/5 : ℚ))) :=
  decide_route_iff (3/4) (3/5) (by norm_num)

/-- C4: threshold monotonicity — if the scorer routes to `USE_FALLBACK`
at threshold `t`, it also routes to `USE_FALLBACK` at every threshold
`t' ≥ t`. -/
theorem decide_threshold_monotone (ts t t' : ℚ)
    (h : (Chatbot.decide ts t).1 = RouteDecision.USE_FALLBACK) (hle : t ≤ t') :
    (Chatbot.decide ts t').1 = RouteDecision.USE_FALLBACK := by
  rw [decide_fst] at h ⊢
  split_ifs at h with hc
  rw [if_neg fun hc2 => hc (le_trans hle hc2)]

/-- Witness for `decide_threshold_monotone` at `top_score = 1/2`,
thresholds `3/5 ≤ 4/5`. -/
theorem decide_threshold_monotone_witness :
    (Chatbot.decide (1/2 : ℚ) (4/5)).1 = RouteDecision.USE_FALLBACK :=
  decide_threshold_monotone (1/2) (3/5) (4/5)
    (by
      rw [decide_fst]
      have hmax : max (0 : ℚ) (1/2) = 1/2 := max_eq_right (by norm_num)
      rw [hmax, if_neg (by norm_num)])
    (by norm_num)

/-- C7: confidence normalization — for any similarity in `[-1, 1]` the
scorer returns `confidence = max 0 top_score`, which lies in `[0, 1]`;
negative similarities map to confidence `0`, and nonnegative similarities
are passed through without further clamping or smoothing. -/
theorem confidence_normalization (ts th : ℚ) (h1 : -1 ≤ ts) (h2 : ts ≤ 1) :
    (Chatbot.decide ts th).2 = max 0 ts ∧
      0 ≤ (Chatbot.decide ts th).2 ∧ (Chatbot.decide ts th).2 ≤ 1 ∧
      (ts < 0 → (Chatbot.decide ts th).2 = 0) ∧
      (0 ≤ ts → (Chatbot.decide ts th).2 = ts) := by
  rw [decide_snd]
  exact ⟨rfl, le_max_left 0 ts, max_le (by norm_num) h2,
    fun hneg => max_eq_left hneg.le, fun hpos => max_eq_right hpos⟩

/-- Witness for `confidence_normalization` at `top_score = -1/3`,
`threshold = 3/5`. -/
theorem confidence_normalization_witness :
    ((Chatbot.decide (-(1 : ℚ)/3) (3/5)).2 = max 0 (-(1 : ℚ)/3) ∧
      0 ≤ (Chatbot.decide (-(1 : ℚ)/3) (3/5)).2 ∧
      (Chatbot.decide (-(1 : ℚ)/3) (3/5)).2 ≤ 1 ∧
      ((-(1 : ℚ)/3) < 0 → (Chatbot.decide (-(1 : ℚ)/3) (3/5)).2 = 0) ∧
      (0 ≤ (-(1 : ℚ)/3) → (Chatbot.decide (-(1 : ℚ)/3) (3/5)).2 = -(1 : ℚ)/3)) :=
  confidence_normalization (-(1 : ℚ)/3) (3/5) (by norm_num) (by norm_num)

/-- C3: on a built index, `query` returns the top-k scored corpus entries
— the sorted list is a permutation of the scored corpus, it is sorted
descending by similarity with ties broken by original corpus order, every
returned element dominates every dropped element, and the result is the
first `k` of that list; called before build, `query` fails with
`IndexNotReadyError`. -/
theorem query_spec (idx : Index) (embed : String → List ℚ) (text : String)
    (k : ℕ) :
    Chatbot.query IndexState.notReady embed text k =
      Except.error ChatError.indexNotReadyError ∧
    (sortedScored idx embed text).Perm (scoredOf idx embed text) ∧
    (sortedScored idx embed text).Pairwise scoredLE ∧
    (∀ a ∈ (sortedScored idx embed text).take k,
      ∀ b ∈ (sortedScored idx embed text).drop k, scoredLE a b) ∧
    Chatbot.query (IndexState.ready idx) embed text k =
      Except.ok ⟨((sortedScored idx embed text).take k).map
        (fun s => (s.entry, s.score)), topScoreOf idx embed text⟩ := by
  have hp : (sortedScored idx embed text).Pairwise scoredLE :=
    List.sorted_insertionSort scoredLE (scoredOf idx embed text)
  refine ⟨rfl, List.perm_insertionSort scoredLE _, hp, ?_, rfl⟩
  have h2 : ((sortedScored idx embed text).take k ++
      (sortedScored idx embed text).drop k).Pairwise scoredLE := by
    rw [List.take_append_drop]
    exact hp
  rw [List.pairwise_append] at h2
  exact fun a ha b hb => h2.2.2 a ha b hb

/-- Witness for `query_spec` on a one-entry index: the not-ready error and
the concrete retrieval result. -/
theorem query_spec_witness :
    Chatbot.query IndexState.notReady (fun _ => [(1 : ℚ)]) "q" 2 =
      Except.error ChatError.indexNotReadyError ∧
    Chatbot.query (IndexState.ready ⟨[⟨⟨"q", "a"⟩, [(1 : ℚ)]⟩]⟩)
        (fun _ => [(1 : ℚ)]) "q" 2 =
      Except.ok ⟨[(⟨"q", "a"⟩, 1)], 1⟩ := by
  have h := query_spec ⟨[⟨⟨"q", "a"⟩, [(1 : ℚ)]⟩]⟩ (fun _ => [(1 : ℚ)]) "q" 2
  refine ⟨h.1, ?_⟩
  rw [h.2.2.2.2]
  congr 1
  simp [sortedScored, scoredOf, scoredOfAux, dot, topScoreOf]

/-- C8: retrieval is deterministic — two `query` calls with equal text and
equal `k` against the same built index return identical results. -/
theorem query_deterministic (st : IndexState) (embed : String → List ℚ)
    (t1 t2 : String) (k1 k2 : ℕ) (ht : t1 = t2) (hk : k1 = k2) :
    Chatbot.query st embed t1 k1 = Chatbot.query st embed t2 k2 := by
  subst ht
  subst hk
  rfl

/-- Witness for `query_deterministic` on a concrete one-entry index. -/
theorem query_deterministic_witness :
    Chatbot.query (IndexState.ready ⟨[⟨⟨"q", "a"⟩, [(1 : ℚ)]⟩]⟩)
        (fun _ => [(1 : ℚ)]) "q" 3 =
      Chatbot.query (IndexState.ready ⟨[⟨⟨"q", "a"⟩, [(1 : ℚ)]⟩]⟩)
        (fun _ => [(1 : ℚ)]) "q" 3 :=
  query_deterministic _ _ "q" "q" 3 3 rfl rfl

/-- `generate` is exhausted exactly when every provider fails. -/
theorem generate_eq_error_iff (q : String) (ps : List ProviderOutcome) :
    generate q ps = Except.error GenerationError.AllProvidersExhausted ↔
      ∀ p ∈ ps, providerSucceeds q p = false := by
  induction ps with
  | nil => simp [generate]
  | cons p rest ih =>
    cases p with
    | ok t =>
      by_cases h : validResponse q t = true
      · simp [generate, h, providerSucceeds]
      · simp only [Bool.not_eq_true] at h
        simp [generate, h, providerSucceeds, ih]
    | transportError => simp [generate, providerSucceeds, ih]
    | timeout => simp [generate, providerSucceeds, ih]

/-- `generate` returns the first valid provider response in priority
order. -/
theorem generate_first_ok (q : String) :
    ∀ (pre : List ProviderOutcome) (t : String) (post : List ProviderOutcome),
      (∀ p ∈ pre, providerSucceeds q p = false) → validResponse q t = true →
      generate q (pre ++ ProviderOutcome.ok t :: post) = Except.ok t := by
  intro pre
  induction pre with
  | nil =>
    intro t post _ hv
    simp [generate, hv]
  | cons p rest ih =>
    intro t post hfail hv
    have hp := hfail p (List.mem_cons_self p rest)
    have hrest : ∀ x ∈ rest, providerSucceeds q x = false :=
      fun x hx => hfail x (List.mem_cons_of_mem p hx)
    cases p with
    | ok s =>
      have hs : validResponse q s = false := by simpa [providerSucceeds] using hp
      simp [generate, hs, ih t post hrest hv]
    | transportError => simp [generate, ih t post hrest hv]
    | timeout => simp [generate, ih t post hrest hv]

/-- C6: the fallback chain tries providers in priority order — exhaustion
occurs exactly when every provider fails, the first valid response in
order is returned, and on the fallback route the pipeline answers with
that text under source `"fallback"`. -/
theorem generate_fallback_chain (q : String) (ps : List ProviderOutcome) :
    (generate q ps = Except.error GenerationError.AllProvidersExhausted ↔
      ∀ p ∈ ps, providerSucceeds q p = false) ∧
    (∀ (pre : List ProviderOutcome) (t : String) (post : List ProviderOutcome),
      ps = pre ++ ProviderOutcome.ok t :: post →
      (∀ p ∈ pre, providerSucceeds q p = false) → validResponse q t = true →
      generate q ps = Except.ok t) ∧
    (∀ (t : String), generate q ps = Except.ok t →
      ∀ (idx : Index) (embed : String → List ℚ) (th : ℚ) (k : ℕ),
        (Chatbot.decide (topScoreOf idx embed q) th).1 = RouteDecision.USE_FALLBACK →
        ∃ payload, handle_message (IndexState.ready idx) embed th k ps q =
            Except.ok payload ∧
          payload.answer = t ∧ payload.metadata.source = "fallback") := by
  refine ⟨generate_eq_error_iff q ps, ?_, ?_⟩
  · intro pre t post hps hfail hv
    subst hps
    exact generate_first_ok q pre t post hfail hv
  · intro t hgen idx embed th k hroute
    refine ⟨compose RouteDecision.USE_FALLBACK
      ⟨((sortedScored idx embed q).take k).map (fun s => (s.entry, s.score)),
        topScoreOf idx embed q⟩ (some t), ?_, rfl, rfl⟩
    simp [handle_message, query, hroute, hgen]

/-- Witness for `generate_fallback_chain`: the primary provider times out
and the secondary returns `"X"`, so the chain answers `"X"`. -/
theorem generate_fallback_chain_witness :
    Chatbot.generate "hello" [ProviderOutcome.timeout, ProviderOutcome.ok "X"] =
      Except.ok "X" :=
  (generate_fallback_chain "hello"
      [ProviderOutcome.timeout, ProviderOutcome.ok "X"]).2.1
    [ProviderOutcome.timeout] "X" [] rfl (by decide) (by decide)

/-- C2: on a ready index the chat endpoint always answers with HTTP 200,
and when the route is `USE_FALLBACK` and every configured provider fails
the payload carries the static apology answer, `metadata.source =
"fallback"` and `metadata.confidence = 0` — never a 5xx. -/
theorem handle_message_exhausted (idx : Index) (embed : String → List ℚ)
    (th : ℚ) (k : ℕ) (ps : List ProviderOutcome) (text : String)
    (hfail : ∀ p ∈ ps, providerSucceeds text p = false) :
    (chatEndpoint (IndexState.ready idx) embed th k ps text).1 = 200 ∧
    ((Chatbot.decide (topScoreOf idx embed text) th).1 = RouteDecision.USE_FALLBACK →
      ∃ payload, chatEndpoint (IndexState.ready idx) embed th k ps text =
          (200, some payload) ∧
        payload.answer = FALLBACK_APOLOGY ∧
        payload.metadata.source = "fallback" ∧
        payload.metadata.confidence = 0) := by
  have hgen : generate text ps = Except.error GenerationError.AllProvidersExhausted :=
    (generate_eq_error_iff text ps).2 hfail
  cases hd : (Chatbot.decide (topScoreOf idx embed text) th).1 with
  | USE_KNOWLEDGE_BASE =>
    refine ⟨?_, ?_⟩
    · simp [chatEndpoint, handle_message, query, hd]
    · intro hcontr
      cases hcontr
  | USE_FALLBACK =>
    have hend : chatEndpoint (IndexState.ready idx) embed th k ps text =
        (200, some (compose RouteDecision.USE_FALLBACK
          ⟨((sortedScored idx embed text).take k).map (fun s => (s.entry, s.score)),
            topScoreOf idx embed text⟩ none)) := by
      simp [chatEndpoint, handle_message, query, hd, hgen]
    exact ⟨by rw [hend], fun _ => ⟨_, hend, rfl, rfl, rfl⟩⟩

/-- Witness for `handle_message_exhausted` on a one-entry index with zero
similarity and two failing providers. -/
theorem handle_message_exhausted_witness :
    ((chatEndpoint
        (IndexState.ready ⟨[⟨⟨"q", "a"⟩, [(0 : ℚ)]⟩]⟩) (fun _ => [(0 : ℚ)])
        (3/5) 3 [ProviderOutcome.timeout, ProviderOutcome.transportError] "x").1 = 200 ∧
      ((Chatbot.decide
          (topScoreOf ⟨[⟨⟨"q", "a"⟩, [(0 : ℚ)]⟩]⟩ (fun _ => [(0 : ℚ)]) "x")
          (3/5)).1 = RouteDecision.USE_FALLBACK →
        ∃ payload, chatEndpoint
            (IndexState.ready ⟨[⟨⟨"q", "a"⟩, [(0 : ℚ)]⟩]⟩) (fun _ => [(0 : ℚ)])
            (3/5) 3 [ProviderOutcome.timeout, ProviderOutcome.transportError] "x" =
            (200, some payload) ∧
          payload.answer = FALLBACK_APOLOGY ∧
          payload.metadata.source = "fallback" ∧
          payload.metadata.confidence = 0)) :=
  handle_message_exhausted ⟨[⟨⟨"q", "a"⟩, [(0 : ℚ)]⟩]⟩ (fun _ => [(0 : ℚ)])
    (3/5) 3 [ProviderOutcome.timeout, ProviderOutcome.transportError] "x"
    (by decide)

/-- Every index entry appears among the scored entries with its dot
product as score. -/
theorem scoredOfAux_mem (v : List ℚ) (en : IndexEntry) :
    ∀ (l : List IndexEntry) (i : ℕ), en ∈ l →
      ∃ s ∈ scoredOfAux v i l, s.entry = en.entry ∧ s.score = dot v en.embedding := by
  intro l
  induction l with
  | nil =>
    intro i h
    cases h
  | cons e es ih =>
    intro i h
    rcases List.mem_cons.mp h with rfl | h2
    · refine ⟨⟨i, en.entry, dot v en.embedding⟩, ?_, rfl, rfl⟩
      simp [scoredOfAux]
    · obtain ⟨s, hs, h1', h2'⟩ := ih (i + 1) h2
      refine ⟨s, ?_, h1', h2'⟩
      simp only [scoredOfAux, List.mem_cons]
      exact Or.inr hs

/-- C5: round-trip self-similarity — if the query text equals a stored
entry's question, the embedding is unit-norm on that text, all
similarities are bounded by `1`, and the stored entry is the unique
similarity-1 entry, then `top_score = 1`, any threshold `≤ 1` routes to
the knowledge base, and the pipeline answers with that entry's stored
answer verbatim under source `"rag"`. -/
theorem round_trip (corpus : List KnowledgeEntry) (embed : String → List ℚ)
    (idx : Index) (e : KnowledgeEntry) (text : String) (th : ℚ) (k : ℕ)
    (ps : List ProviderOutcome)
    (hb : build embed corpus = Except.ok idx)
    (he : e ∈ corpus)
    (htext : text = e.question)
    (hunit : dot (embed text) (embed text) = 1)
    (hbound : ∀ s ∈ scoredOf idx embed text, s.score ≤ 1)
    (huniq : ∀ s ∈ scoredOf idx embed text, s.score = 1 → s.entry = e)
    (hth : th ≤ 1) (hk : 1 ≤ k) :
    topScoreOf idx embed text = 1 ∧
    (Chatbot.decide (topScoreOf idx embed text) th).1 =
      RouteDecision.USE_KNOWLEDGE_BASE ∧
    ∃ payload, handle_message (IndexState.ready idx) embed th k ps text =
        Except.ok payload ∧
      payload.answer = e.answer ∧ payload.metadata.source = "rag" := by
  unfold build at hb
  split_ifs at hb with hc
  rw [Except.ok.injEq] at hb
  obtain ⟨s0, hs0, hs0e, hs0s⟩ :
      ∃ s ∈ scoredOf idx embed text, s.entry = e ∧ s.score = 1 := by
    have hmem : (⟨e, embed e.question⟩ : IndexEntry) ∈ idx.entries := by
      rw [← hb]
      show (⟨e, embed e.question⟩ : IndexEntry) ∈
        corpus.map (fun qa => (⟨qa, embed qa.question⟩ : IndexEntry))
      exact List.mem_map_of_mem _ he
    obtain ⟨s, hs, h1, h2⟩ := scoredOfAux_mem (embed text) ⟨e, embed e.question⟩
      idx.entries 0 hmem
    refine ⟨s, hs, h1, ?_⟩
    rw [h2]
    show dot (embed text) (embed e.question) = 1
    rw [← htext]
    exact hunit
  have hperm : (sortedScored idx embed text).Perm (scoredOf idx embed text) :=
    List.perm_insertionSort scoredLE _
  have hsorted : (sortedScored idx embed text).Pairwise scoredLE :=
    List.sorted_insertionSort scoredLE _
  have hs0L : s0 ∈ sortedScored idx embed text := hperm.mem_iff.2 hs0
  cases hL : sortedScored idx embed text with
  | nil =>
    rw [hL] at hs0L
    cases hs0L
  | cons t rest =>
    rw [hL] at hs0L hperm hsorted
    have htmem : t ∈ scoredOf idx embed text :=
      hperm.mem_iff.1 (List.mem_cons_self t rest)
    have htle : t.score ≤ 1 := hbound t htmem
    have hts1 : t.score = 1 := by
      rcases List.mem_cons.mp hs0L with rfl | hrest
      · exact hs0s
      · have hle := (List.pairwise_cons.mp hsorted).1 s0 hrest
        rcases hle with hlt | ⟨heq, _⟩
        · rw [hs0s] at hlt
          exact absurd (lt_of_lt_of_le hlt htle) (lt_irrefl 1)
        · rw [heq, hs0s]
    have hte : t.entry = e := huniq t htmem hts1
    have htop : topScoreOf idx embed text = 1 := by
      unfold topScoreOf
      rw [hL]
      simp [hts1]
    have hroute : (Chatbot.decide (topScoreOf idx embed text) th).1 =
        RouteDecision.USE_KNOWLEDGE_BASE := by
      rw [htop, decide_fst, max_eq_right (zero_le_one), if_pos hth]
    refine ⟨htop, hroute, ?_⟩
    cases k with
    | zero => exact absurd hk (by norm_num)
    | succ m =>
      refine ⟨compose RouteDecision.USE_KNOWLEDGE_BASE
        ⟨((sortedScored idx embed text).take (m + 1)).map
          (fun s => (s.entry, s.score)), topScoreOf idx embed text⟩ none,
        ?_, ?_, rfl⟩
      · simp [handle_message, query, hroute]
      · simp [compose, hL, hte]

/-- Witness for `round_trip` on the spec's one-entry PPD corpus with a
constant unit embedding and threshold `3/5`. -/
theorem round_trip_witness :
    (topScoreOf ⟨[⟨⟨"What are signs of PPD?", "Sadness, anxiety, sleep changes"⟩,
        [(1 : ℚ)]⟩]⟩ (fun _ => [(1 : ℚ)]) "What are signs of PPD?" = 1 ∧
      (Chatbot.decide (topScoreOf ⟨[⟨⟨"What are signs of PPD?",
          "Sadness, anxiety, sleep changes"⟩, [(1 : ℚ)]⟩]⟩
        (fun _ => [(1 : ℚ)]) "What are signs of PPD?") (3/5)).1 =
        RouteDecision.USE_KNOWLEDGE_BASE ∧
      ∃ payload, handle_message
          (IndexState.ready ⟨[⟨⟨"What are signs of PPD?",
            "Sadness, anxiety, sleep changes"⟩, [(1 : ℚ)]⟩]⟩)
          (fun _ => [(1 : ℚ)]) (3/5) 3 [] "What are signs of PPD?" =
          Except.ok payload ∧
        payload.answer = "Sadness, anxiety, sleep changes" ∧
        payload.metadata.source = "rag") :=
  round_trip
    [⟨"What are signs of PPD?", "Sadness, anxiety, sleep changes"⟩]
    (fun _ => [(1 : ℚ)])
    ⟨[⟨⟨"What are signs of PPD?", "Sadness, anxiety, sleep changes"⟩, [(1 : ℚ)]⟩]⟩
    ⟨"What are signs of PPD?", "Sadness, anxiety, sleep changes"⟩
    "What are signs of PPD?" (3/5) 3 []
    rfl (by simp) rfl (by norm_num [dot])
    (by
      intro s hs
      simp only [scoredOf, scoredOfAux, dot, List.zipWith, List.sum_cons,
        List.sum_nil, List.mem_singleton] at hs
      subst hs
      norm_num)
    (by
      intro s hs _
      simp only [scoredOf, scoredOfAux, dot, List.zipWith, List.sum_cons,
        List.sum_nil, List.mem_singleton] at hs
      subst hs
      rfl)
    (by norm_num) (by norm_num)

/-- C9 counterexample: at `metadata.confidence = 0` (the provider
exhaustion payload) the rendered metadata caption is not just the source
— React renders the falsy numeral `0`, producing `Source: FALLBACK0`. -/
theorem metadataLine_zero_counterexample :
    metadataLine "fallback" 0 = "Source: FALLBACK0" ∧
      metadataLine "fallback" 0 ≠ "Source: FALLBACK" := by
  constructor
  · decide
  · decide

/-- C9 (amended): the `Confidence: NN%` segment is rendered exactly when
`metadata.confidence` is truthy (non-zero), showing `Math.round(c * 100)`
percent; on the provider-exhaustion payload (`source = "fallback"`,
`confidence = 0`) the segment is omitted but React appends the bare
numeral `0` to the caption. -/
theorem metadataLine_truthiness (src : String) (c : ℚ) (r : RetrievalResult)
    (hc : c ≠ 0) :
    metadataLine src c =
      "Source: " ++ jsToUpperCase src ++ " • Confidence: " ++
        toString (mathRound (c * 100)) ++ "%" ∧
    metadataLine (compose RouteDecision.USE_FALLBACK r none).metadata.source
        (compose RouteDecision.USE_FALLBACK r none).metadata.confidence =
      "Source: FALLBACK0" := by
  constructor
  · unfold metadataLine
    rw [if_neg hc]
    simp [String.append_assoc]
  · show metadataLine "fallback" 0 = "Source: FALLBACK0"
    decide

/-- Witness for `metadataLine_truthiness` at source `"rag"` and confidence
`17/20`: the caption shows `85%`. -/
theorem metadataLine_truthiness_witness :
    metadataLine "rag" (17/20) = "Source: RAG • Confidence: 85%" := by
  have h := (metadataLine_truthiness "rag" (17/20) ⟨[], 0⟩ (by norm_num)).1
  rw [h]
  have h85 : mathRound ((17 : ℚ)/20 * 100) = 85 := by
    norm_num [mathRound]
  rw [h85]
  decide

end Chatbot

namespace Nutrition

/-- C10: the `POST /predict` handler responds 200 with a non-empty
recommendations list ending in the `General Postpartum Nutrition` entry
whenever `preferredCuisine` is a string (other fields may be absent), and
responds 500 with the fixed error message and no recommendations whenever
`preferredCuisine` is absent (the handler throws on
`preferredCuisine.toLowerCase()`). -/
theorem predict_spec (u : NutritionInput) :
    (∀ s, u.preferredCuisine = some s →
      (predict u).status = 200 ∧
      ∃ recs, (predict u).recommendations = some recs ∧ recs ≠ [] ∧
        recs.getLast?.map Recommendation.title =
          some "General Postpartum Nutrition") ∧
    (u.preferredCuisine = none →
      (predict u).status = 500 ∧ (predict u).recommendations = none ∧
      (predict u).error = some "Failed to generate nutrition recommendations") := by
  constructor
  · intro s hs
    unfold predict generateMockRecommendations
    rw [hs]
    refine ⟨rfl, _, rfl, ?_, ?_⟩
    · simp
    · rw [List.getLast?_concat]
      rfl
  · intro hn
    unfold predict generateMockRecommendations
    rw [hn]
    exact ⟨rfl, rfl, rfl⟩

/-- Witness for `predict_spec`: a request preferring Indian cuisine gets a
200 response whose recommendation list ends with the general entry. -/
theorem predict_spec_witness :
    ((predict ⟨some "yes", some "vegan", none, some "iron", some "Indian"⟩).status
        = 200 ∧
      ∃ recs, (predict ⟨some "yes", some "vegan", none, some "iron",
          some "Indian"⟩).recommendations = some recs ∧ recs ≠ [] ∧
        recs.getLast?.map Recommendation.title =
          some "General Postpartum Nutrition") :=
  (predict_spec ⟨some "yes", some "vegan", none, some "iron", some "Indian"⟩).1
    "Indian" rfl

end Nutrition
